import Mathlib

/-!
Verification development for the Poland VAT bank checker service
(`main.go`).  The service answers whether a tax identifier (NIP),
optionally paired with a 26-character bank account number, occurs in a
privacy-hashed registry.  The core algorithms embedded here are:

* `calculateHash` — iterated SHA-512 over the lowercase hex text of the
  previous round's digest (Go `calculateHash`, which reads the global
  `iterations`; here the iteration count is an explicit argument);
* `applyMask` — per-character mask application over runes (Go
  `applyMask`); a 'Y' at an index beyond the account's rune length makes
  the Go code panic with index-out-of-range, modelled as `none`;
* `verifyHandler` — the `/verify` decision procedure over a snapshot of
  the global dataset state;
* `verifyStaged` — the same decision procedure with every access to the
  shared globals made explicit (the Go handler acquires and releases the
  read lock several times per request, and `calculateHash` reads the
  global `iterations` with no lock at all), used to analyse behaviour
  when a request overlaps a dataset refresh;
* `loadData` — the state transition the Go `loadData` performs on the
  globals, with read/parse failures of the source document made explicit.

SHA-512 itself (Go `crypto/sha512`) is implemented concretely (FIPS
180-4) so that every definition is executable; machine words are `Nat`
truncated with `% 2^64`.
-/

namespace VatChecker

set_option maxRecDepth 100000

/-- Truncate to a 64-bit machine word. -/
def w64 (x : Nat) : Nat := x % 18446744073709551616

/-- Rotate a 64-bit word right by `n` bits. -/
def rotr (n x : Nat) : Nat := w64 ((x >>> n) ||| (x <<< (64 - n)))

/-- SHA-512 Ch function: `(x AND y) XOR (NOT x AND z)` on 64-bit words. -/
def shaCh (x y z : Nat) : Nat :=
  (x &&& y) ^^^ ((x ^^^ 18446744073709551615) &&& z)

/-- SHA-512 Maj function. -/
def shaMaj (x y z : Nat) : Nat := (x &&& y) ^^^ (x &&& z) ^^^ (y &&& z)

/-- SHA-512 Σ0. -/
def bigSig0 (x : Nat) : Nat := rotr 28 x ^^^ rotr 34 x ^^^ rotr 39 x

/-- SHA-512 Σ1. -/
def bigSig1 (x : Nat) : Nat := rotr 14 x ^^^ rotr 18 x ^^^ rotr 41 x

/-- SHA-512 σ0. -/
def smallSig0 (x : Nat) : Nat := rotr 1 x ^^^ rotr 8 x ^^^ (x >>> 7)

/-- SHA-512 σ1. -/
def smallSig1 (x : Nat) : Nat := rotr 19 x ^^^ rotr 61 x ^^^ (x >>> 6)

/-- The 80 SHA-512 round constants (FIPS 180-4 §4.2.3). -/
def kConstants : List Nat :=
  [4794697086780616226, 8158064640168781261, 13096744586834688815,
   16840607885511220156, 4131703408338449720, 6480981068601479193,
   10538285296894168987, 12329834152419229976, 15566598209576043074,
   1334009975649890238, 2608012711638119052, 6128411473006802146,
   8268148722764581231, 9286055187155687089, 11230858885718282805,
   13951009754708518548, 16472876342353939154, 17275323862435702243,
   1135362057144423861, 2597628984639134821, 3308224258029322869,
   5365058923640841347, 6679025012923562964, 8573033837759648693,
   10970295158949994411, 12119686244451234320, 12683024718118986047,
   13788192230050041572, 14330467153632333762, 15395433587784984357,
   489312712824947311, 1452737877330783856, 2861767655752347644,
   3322285676063803686, 5560940570517711597, 5996557281743188959,
   7280758554555802590, 8532644243296465576, 9350256976987008742,
   10552545826968843579, 11727347734174303076, 12113106623233404929,
   14000437183269869457, 14369950271660146224, 15101387698204529176,
   15463397548674623760, 17586052441742319658, 1182934255886127544,
   1847814050463011016, 2177327727835720531, 2830643537854262169,
   3796741975233480872, 4115178125766777443, 5681478168544905931,
   6601373596472566643, 7507060721942968483, 8399075790359081724,
   8693463985226723168, 9568029438360202098, 10144078919501101548,
   10430055236837252648, 11840083180663258601, 13761210420658862357,
   14299343276471374635, 14566680578165727644, 15097957966210449927,
   16922976911328602910, 17689382322260857208, 500013540394364858,
   748580250866718886, 1242879168328830382, 1977374033974150939,
   2944078676154940804, 3659926193048069267, 4368137639120453308,
   4836135668995329356, 5532061633213252278, 6448918945643986474,
   6902733635092675308, 7801388544844847127]

/-- The eight 64-bit working variables of SHA-512 compression. -/
structure Sha512State where
  a : Nat
  b : Nat
  c : Nat
  d : Nat
  e : Nat
  f : Nat
  g : Nat
  h : Nat

/-- One SHA-512 round; `kw` is the (already truncated) sum `K[t] + W[t]`. -/
def shaRound (s : Sha512State) (kw : Nat) : Sha512State :=
  let t1 := w64 (s.h + bigSig1 s.e + shaCh s.e s.f s.g + kw)
  let t2 := w64 (bigSig0 s.a + shaMaj s.a s.b s.c)
  ⟨w64 (t1 + t2), s.a, s.b, s.c, w64 (s.d + t1), s.e, s.f, s.g⟩

/-- Big-endian word from a byte list. -/
def bytesToWord (bs : List Nat) : Nat := bs.foldl (fun acc b => acc * 256 + b) 0

/-- Split a byte list into big-endian 64-bit words (`fuel` bounds the
recursion; callers pass at least the number of words). -/
def toWords : Nat → List Nat → List Nat
  | _, [] => []
  | 0, _ => []
  | f + 1, l => bytesToWord (l.take 8) :: toWords f (l.drop 8)

/-- Extend a 16-word message block by `n` further schedule words. -/
def extendW : Nat → List Nat → List Nat
  | 0, ws => ws
  | n + 1, ws =>
    let len := ws.length
    extendW n (ws ++ [w64 (smallSig1 (ws.getD (len - 2) 0) + ws.getD (len - 7) 0 +
      smallSig0 (ws.getD (len - 15) 0) + ws.getD (len - 16) 0)])

/-- Compress one 128-byte block into the running state. -/
def compressBlock (st : Sha512State) (block : List Nat) : Sha512State :=
  let ws := extendW 64 (toWords 16 block)
  let fin := (kConstants.zip ws).foldl (fun s kw => shaRound s (w64 (kw.1 + kw.2))) st
  ⟨w64 (st.a + fin.a), w64 (st.b + fin.b), w64 (st.c + fin.c), w64 (st.d + fin.d),
   w64 (st.e + fin.e), w64 (st.f + fin.f), w64 (st.g + fin.g), w64 (st.h + fin.h)⟩

/-- SHA-512 padding: append `0x80`, zeros to 112 mod 128, then the
128-bit big-endian bit length. -/
def padMessage (msg : List Nat) : List Nat :=
  let l := msg.length
  let k := (240 - ((l + 1) % 128)) % 128
  msg ++ [128] ++ List.replicate k 0 ++
    (List.range 16).map (fun i => ((8 * l) >>> (8 * (15 - i))) % 256)

/-- Split a padded message into 128-byte blocks (`fuel` bounds the
recursion; callers pass the list length). -/
def toBlocks : Nat → List Nat → List (List Nat)
  | _, [] => []
  | 0, _ => []
  | f + 1, l => l.take 128 :: toBlocks f (l.drop 128)

/-- SHA-512 initial hash value (FIPS 180-4 §5.3.5). -/
def initState : Sha512State :=
  ⟨7640891576956012808, 13503953896175478587, 4354685564936845355,
   11912009170470909681, 5840696475078001361, 11170449401992604703,
   2270897969802886507, 6620516959819538809⟩

/-- Big-endian bytes of a 64-bit word. -/
def wordBytes (w : Nat) : List Nat :=
  [(w >>> 56) % 256, (w >>> 48) % 256, (w >>> 40) % 256, (w >>> 32) % 256,
   (w >>> 24) % 256, (w >>> 16) % 256, (w >>> 8) % 256, w % 256]

/-- SHA-512 of a byte list, as the 64-byte digest. -/
def sha512 (msg : List Nat) : List Nat :=
  let padded := padMessage msg
  let fin := (toBlocks padded.length padded).foldl compressBlock initState
  ([fin.a, fin.b, fin.c, fin.d, fin.e, fin.f, fin.g, fin.h]).flatMap wordBytes

/-- ASCII code of the lowercase hex digit for `n < 16`
(mirrors Go `encoding/hex`, which is lowercase; the `strings.ToLower`
in `calculateHash` is a no-op on it). -/
def hexCode (n : Nat) : Nat := if n < 10 then 48 + n else 87 + n

/-- Lowercase hex text of a byte list, as ASCII byte codes. -/
def hexBytes (bs : List Nat) : List Nat :=
  bs.flatMap (fun b => [hexCode (b / 16), hexCode (b % 16)])

/-- Decode a byte list into a string, one char per byte (all bytes the
service produces are ASCII). -/
def asciiDecode (l : List Nat) : String := ⟨l.map Char.ofNat⟩

/-- UTF-8 encoding of one character (Go `[]byte(string)` semantics). -/
def utf8EncodeCh (c : Char) : List Nat :=
  let n := c.toNat
  if n < 128 then [n]
  else if n < 2048 then [192 + n / 64, 128 + n % 64]
  else if n < 65536 then [224 + n / 4096, 128 + (n / 64) % 64, 128 + n % 64]
  else [240 + n / 262144, 128 + (n / 4096) % 64, 128 + (n / 64) % 64, 128 + n % 64]

/-- UTF-8 bytes of a string (Go `[]byte(input)`). -/
def strBytes (s : String) : List Nat := s.data.flatMap utf8EncodeCh

/-- `n` rounds of `hash = []byte(hex.EncodeToString(sha512.Sum512(hash)))`
(the loop body of Go `calculateHash`). -/
def hashRounds : Nat → List Nat → List Nat
  | 0, h => h
  | n + 1, h => hashRounds n (hexBytes (sha512 h))

/-- Go `calculateHash`: iterate `iterations` rounds of SHA-512, re-digesting
the lowercase hex text of the previous digest, starting from the UTF-8
bytes of `input`.  The Go function reads the global `iterations`; here it
is an explicit argument. -/
def calculateHash (input : String) (iterations : Nat) : String :=
  asciiDecode (hashRounds iterations (strBytes input))

/-- Go `len` on a string: its UTF-8 byte length. -/
def goLen (s : String) : Nat := (strBytes s).length

/-- The rune-level loop of Go `applyMask`, scanning the mask characters
with their absolute index `i`: 'Y' copies `account[i]` (panicking —
`none` — when `i` is out of range), 'X' stays the literal 'X', any other
character stays itself. -/
def applyMaskRunes (account : List Char) : List Char → Nat → Option (List Char)
  | [], _ => some []
  | c :: rest, i =>
    if c = 'Y' then
      match account[i]? with
      | none => none
      | some d => (applyMaskRunes account rest (i + 1)).map (fun l => d :: l)
    else if c = 'X' then (applyMaskRunes account rest (i + 1)).map (fun l => 'X' :: l)
    else (applyMaskRunes account rest (i + 1)).map (fun l => c :: l)

/-- Go `applyMask bank mask`: apply the mask template per rune position;
`none` models the index-out-of-range panic. -/
def applyMask (bank mask : String) : Option String :=
  (applyMaskRunes bank.data mask.data 0).map (fun l => ⟨l⟩)

/-- One generation of the dataset globals (`dataDate`, `iterations`,
`activeHashes`, `exemptHashes`, `masks`), as read by the handler.  The Go
maps carry `true` at every inserted key, so membership is list membership
of the key. -/
structure Snapshot where
  dataDate : String
  iterations : Nat
  activeHashes : List String
  exemptHashes : List String
  masks : List String
  deriving DecidableEq

/-- A JSON body written by the handler: either the ERROR shape (message
only) or the OK shape (status, bank, date). -/
inductive VerifyResult where
  | error (message : String)
  | ok (status : String) (bank : String) (date : String)
  deriving DecidableEq

/-- Outcome of the mask-template loop: an `applyMask` panic, a response
returned from inside the loop, or falling through the whole list. -/
inductive MaskScan where
  | panics
  | matched (r : VerifyResult)
  | exhausted
  deriving DecidableEq

/-- The mask-template loop of `verifyHandler`, over one snapshot. -/
def scanMasks (snap : Snapshot) (nip bank : String) : List String → MaskScan
  | [] => .exhausted
  | m :: rest =>
    match applyMask bank m with
    | none => .panics
    | some masked =>
      let maskedHash := calculateHash (snap.dataDate ++ nip ++ masked) snap.iterations
      if snap.activeHashes.contains maskedHash then
        .matched (.ok "ACTIVE" "MATCHED" snap.dataDate)
      else if snap.exemptHashes.contains maskedHash then
        .matched (.ok "EXEMPT" "MATCHED" snap.dataDate)
      else scanMasks snap nip bank rest

/-- Go `verifyHandler` with query parameters `nip` and `bank` (absent
parameters arrive as `""`), run against a single snapshot of the globals.
`none` models a panic escaping the handler (only `applyMask` can panic).
-/
def verifyHandler (snap : Snapshot) (nip bank : String) : Option VerifyResult :=
  if nip = "" then some (.error "Missing required parameters")
  else if bank ≠ "" ∧ goLen bank ≠ 26 then some (.error "Invalid bank account number")
  else
    let hashed := calculateHash (snap.dataDate ++ nip) snap.iterations
    if snap.activeHashes.contains hashed then some (.ok "ACTIVE" "NA" snap.dataDate)
    else if snap.exemptHashes.contains hashed then some (.ok "EXEMPT" "NA" snap.dataDate)
    else if bank ≠ "" then
      let hashedB := calculateHash (snap.dataDate ++ nip ++ bank) snap.iterations
      if snap.activeHashes.contains hashedB then some (.ok "ACTIVE" "MATCHED" snap.dataDate)
      else if snap.exemptHashes.contains hashedB then some (.ok "EXEMPT" "MATCHED" snap.dataDate)
      else
        match scanMasks snap nip bank snap.masks with
        | .panics => none
        | .matched r => some r
        | .exhausted => some (.ok "NOT_FOUND" "NOT_FOUND" snap.dataDate)
    else some (.ok "NOT_FOUND" "NOT_FOUND" snap.dataDate)

/-- The mask loop with each access to the shared globals made explicit:
the `k`-th access of the request sees generation `g k`.  Per template the
loop reads the unsynchronized global `iterations` (inside
`calculateHash`) and then, under a fresh `RLock`, both hash maps. -/
def scanMasksStaged (g : Nat → Snapshot) (date nip bank : String) :
    List String → Nat → MaskScan
  | [], _ => .exhausted
  | m :: rest, k =>
    match applyMask bank m with
    | none => .panics
    | some masked =>
      let maskedHash := calculateHash (date ++ nip ++ masked) (g k).iterations
      let s := g (k + 1)
      if s.activeHashes.contains maskedHash then .matched (.ok "ACTIVE" "MATCHED" date)
      else if s.exemptHashes.contains maskedHash then .matched (.ok "EXEMPT" "MATCHED" date)
      else scanMasksStaged g date nip bank rest (k + 2)

/-- Go `verifyHandler` with its successive accesses to the shared globals
made explicit: access `i` sees generation `g i`.  The Go handler takes
and releases `mu.RLock()` separately for (0) `dataDate`, (2) the two hash
maps for the NIP lookup, (4) the maps for the direct bank lookup, and per
mask template; `calculateHash` reads the global `iterations` with no lock
at all (accesses 1, 3, and one per template), and the loop reads `masks`
(access 5).  `loadData` mutates all globals under the full `mu.Lock()`,
so each locked access is internally consistent, but nothing makes two
accesses of one request see the same generation. -/
def verifyStaged (g : Nat → Snapshot) (nip bank : String) : Option VerifyResult :=
  if nip = "" then some (.error "Missing required parameters")
  else if bank ≠ "" ∧ goLen bank ≠ 26 then some (.error "Invalid bank account number")
  else
    let date := (g 0).dataDate
    let hashed := calculateHash (date ++ nip) (g 1).iterations
    let s2 := g 2
    if s2.activeHashes.contains hashed then some (.ok "ACTIVE" "NA" date)
    else if s2.exemptHashes.contains hashed then some (.ok "EXEMPT" "NA" date)
    else if bank ≠ "" then
      let hashedB := calculateHash (date ++ nip ++ bank) (g 3).iterations
      let s4 := g 4
      if s4.activeHashes.contains hashedB then some (.ok "ACTIVE" "MATCHED" date)
      else if s4.exemptHashes.contains hashedB then some (.ok "EXEMPT" "MATCHED" date)
      else
        match scanMasksStaged g date nip bank (g 5).masks 6 with
        | .panics => none
        | .matched r => some r
        | .exhausted => some (.ok "NOT_FOUND" "NOT_FOUND" date)
    else some (.ok "NOT_FOUND" "NOT_FOUND" date)

/-- Decimal digit run, most significant first; `none` on a non-digit. -/
def parseDigits : List Char → Nat → Option Nat
  | [], acc => some acc
  | c :: rest, acc =>
    if '0' ≤ c ∧ c ≤ '9' then parseDigits rest (acc * 10 + (c.toNat - 48)) else none

/-- Go `strconv.Atoi` on a 64-bit platform: optional sign then decimal
digits; an error (`none`) on an empty string, a stray character, or a
value outside the `int64` range. -/
def goAtoi (s : String) : Option Int :=
  let core : Bool → List Char → Option Int := fun neg ds =>
    match ds with
    | [] => none
    | _ =>
      match parseDigits ds 0 with
      | none => none
      | some n =>
        let v : Int := if neg then -(n : Int) else (n : Int)
        if -9223372036854775808 ≤ v ∧ v ≤ 9223372036854775807 then some v else none
  match s.data with
  | '+' :: rest => core false rest
  | '-' :: rest => core true rest
  | ds => core false ds

/-- The parsed source document (Go `DataStructure`). -/
structure DataStructure where
  dataDate : String
  transformCount : String
  activeHashes : List String
  exemptHashes : List String
  masks : List String
  deriving DecidableEq

/-- The Go globals' initial values (`var` block of `main.go`; the maps
start `nil`, in which every lookup misses). -/
def initialGlobals : Snapshot :=
  { dataDate := "20250101", iterations := 5000,
    activeHashes := [], exemptHashes := [], masks := [] }

/-- What `loadData` is given: reading the file may fail, parsing the JSON
may fail, or a document is parsed (an absent `liczbaTransformacji` field
unmarshals to `""`). -/
inductive LoadInput where
  | readError
  | parseError
  | parsed (doc : DataStructure)

/-- Go `loadData` as a transition on the globals, paired with whether it
returned an error: a read or parse failure returns the error before
touching any global; on success every field is replaced, except that
`iterations` keeps its previous value when the transform count does not
parse as a positive integer. -/
def loadData (g : Snapshot) : LoadInput → Snapshot × Bool
  | .readError => (g, true)
  | .parseError => (g, true)
  | .parsed doc =>
    ({ dataDate := doc.dataDate
       iterations :=
         match goAtoi doc.transformCount with
         | some v => if 0 < v then v.toNat else g.iterations
         | none => g.iterations
       activeHashes := doc.activeHashes
       exemptHashes := doc.exemptHashes
       masks := doc.masks }, false)

/-- The identity-only decision of the handler: the outcome of the NIP
hash lookup alone, with the bank column as the handler emits it. -/
def identityOnlyOutcome (snap : Snapshot) (nip : String) : VerifyResult :=
  let hashed := calculateHash (snap.dataDate ++ nip) snap.iterations
  if snap.activeHashes.contains hashed then .ok "ACTIVE" "NA" snap.dataDate
  else if snap.exemptHashes.contains hashed then .ok "EXEMPT" "NA" snap.dataDate
  else .ok "NOT_FOUND" "NOT_FOUND" snap.dataDate

/-- A lowercase hexadecimal digit character. -/
def isLowerHexChar (c : Char) : Bool :=
  (decide ('0' ≤ c) && decide (c ≤ '9')) || (decide ('a' ≤ c) && decide (c ≤ 'f'))

/-- The per-position mask semantics of `applyMask`: a 'Y' in the template
copies the account character, an 'X' stays the literal 'X', anything else
stays the template's own character. -/
def maskChar (a t : Char) : Char := if t = 'Y' then a else if t = 'X' then 'X' else t

/-! Concrete fixtures used to instantiate the theorems below.  Their hash
sets contain `calculateHash` terms directly, so membership is settled by
evaluation. -/

/-- A valid 26-character account number. -/
def bank26 : String := "11111111111111111111111111"

/-- Snapshot in which NIP `"123"` matches identity-only as ACTIVE. -/
def snapActiveId : Snapshot :=
  { dataDate := "20250101", iterations := 1,
    activeHashes := [calculateHash ("20250101" ++ "123") 1],
    exemptHashes := [], masks := ["YYYYYYYYYYYYYYYYYYYYYYYYYY"] }

/-- Snapshot in which NIP `"123"` matches identity-only as EXEMPT. -/
def snapExemptId : Snapshot :=
  { dataDate := "20250101", iterations := 1,
    activeHashes := [],
    exemptHashes := [calculateHash ("20250101" ++ "123") 1],
    masks := ["YYYYYYYYYYYYYYYYYYYYYYYYYY"] }

/-- Snapshot whose second mask template (25 'Y's then an 'X') matches
NIP `"123"` with account `bank26` as ACTIVE; the first template and the
identity-only and direct bank hashes all miss. -/
def snapMask : Snapshot :=
  { dataDate := "20250101", iterations := 1,
    activeHashes := [calculateHash ("20250101" ++ "123" ++ "1111111111111111111111111X") 1],
    exemptHashes := [],
    masks := ["XXXXXXXXXXXXXXXXXXXXXXXXXX", "YYYYYYYYYYYYYYYYYYYYYYYYYX"] }

/-- Pre-refresh generation: NIP `"N"` is ACTIVE under date `"D1"`. -/
def snapOld : Snapshot :=
  { dataDate := "D1", iterations := 1,
    activeHashes := [calculateHash ("D1" ++ "N") 1], exemptHashes := [], masks := [] }

/-- Post-refresh generation: NIP `"N"` is ACTIVE under date `"D2"`. -/
def snapNew : Snapshot :=
  { dataDate := "D2", iterations := 1,
    activeHashes := [calculateHash ("D2" ++ "N") 1], exemptHashes := [], masks := [] }

/-- A refresh completing between the handler's `dataDate` read (access 0)
and all its later reads: access 0 sees `snapOld`, the rest see `snapNew`.
-/
def refreshMid (i : Nat) : Snapshot := if i < 1 then snapOld else snapNew

/-- A source document whose transform count parses as the positive
integer 7. -/
def docSeven : DataStructure :=
  { dataDate := "20250102", transformCount := "7",
    activeHashes := [], exemptHashes := [], masks := [] }

/-- A source document whose transform count is non-numeric. -/
def docBadCount : DataStructure :=
  { dataDate := "20250103", transformCount := "abc",
    activeHashes := [], exemptHashes := [], masks := [] }

/-! ## Structural lemmas about the digest and its hex text -/

/-- A SHA-512 digest is 64 bytes long, whatever the message. -/
theorem sha512_length (msg : List Nat) : (sha512 msg).length = 64 := by
  simp [sha512, wordBytes, List.flatMap_cons, List.flatMap_nil]

/-- Every byte of a SHA-512 digest is below 256. -/
theorem sha512_mem_lt (msg : List Nat) : ∀ b ∈ sha512 msg, b < 256 := by
  intro b hb
  simp only [sha512, wordBytes, List.mem_flatMap, List.mem_cons, List.not_mem_nil,
    or_false] at hb
  obtain ⟨w, -, hb⟩ := hb
  rcases hb with rfl | rfl | rfl | rfl | rfl | rfl | rfl | rfl <;>
    exact Nat.mod_lt _ (by norm_num)

/-- Hex text is twice as long as the bytes it encodes. -/
theorem hexBytes_length (bs : List Nat) : (hexBytes bs).length = 2 * bs.length := by
  induction bs with
  | nil => rfl
  | cons b rest ih => simp only [hexBytes, List.flatMap_cons] at ih ⊢; simp [ih]; omega

/-- Every element of the hex text of a byte list is `hexCode n` for some
`n < 16`. -/
theorem mem_hexBytes {bs : List Nat} {x : Nat} (h : ∀ b ∈ bs, b < 256)
    (hx : x ∈ hexBytes bs) : ∃ n, n < 16 ∧ x = hexCode n := by
  simp only [hexBytes, List.mem_flatMap, List.mem_cons, List.not_mem_nil, or_false] at hx
  obtain ⟨b, hb, hx⟩ := hx
  have hb' := h b hb
  rcases hx with rfl | rfl
  · exact ⟨b / 16, by omega, rfl⟩
  · exact ⟨b % 16, by omega, rfl⟩

/-- Hex text of bytes below 256 is ASCII. -/
theorem hexBytes_lt_128 {bs : List Nat} (h : ∀ b ∈ bs, b < 256) :
    ∀ c ∈ hexBytes bs, c < 128 := by
  intro c hc
  obtain ⟨n, hn, rfl⟩ := mem_hexBytes h hc
  unfold hexCode; split <;> omega

/-- `Char.ofNat` inverts `Char.toNat` on ASCII codes. -/
theorem charOfNat_toNat : ∀ b < 128, (Char.ofNat b).toNat = b := by decide

/-- `hexCode` yields lowercase hexadecimal characters. -/
theorem hexCode_char : ∀ n < 16, isLowerHexChar (Char.ofNat (hexCode n)) = true := by decide

/-- UTF-8 encodes an ASCII code point as the single identical byte. -/
theorem utf8EncodeCh_ofNat (b : Nat) (h : b < 128) : utf8EncodeCh (Char.ofNat b) = [b] := by
  have ht := charOfNat_toNat b h
  unfold utf8EncodeCh
  rw [ht]
  simp [h]

/-- Re-encoding an ASCII byte list decoded to a string gives it back. -/
theorem flatMap_utf8_map_ofNat (l : List Nat) (h : ∀ b ∈ l, b < 128) :
    (l.map Char.ofNat).flatMap utf8EncodeCh = l := by
  induction l with
  | nil => rfl
  | cons b rest ih =>
    have hb : b < 128 := h b (List.mem_cons_self b rest)
    have hr : ∀ x ∈ rest, x < 128 := fun x hx => h x (List.mem_cons_of_mem b hx)
    simp [List.map_cons, List.flatMap_cons, utf8EncodeCh_ofNat b hb, ih hr]

/-- Go's `[]byte(string(bs))` round trip on ASCII byte lists. -/
theorem strBytes_asciiDecode (l : List Nat) (h : ∀ b ∈ l, b < 128) :
    strBytes (asciiDecode l) = l :=
  flatMap_utf8_map_ofNat l h

/-- Unfolding one hashing round. -/
theorem hashRounds_succ (n : Nat) (b : List Nat) :
    hashRounds (n + 1) b = hashRounds n (hexBytes (sha512 b)) := rfl

/-- After at least one round, the state is the hex text of some digest. -/
theorem hashRounds_shape :
    ∀ (n : Nat) (b : List Nat), 1 ≤ n → ∃ m, hashRounds n b = hexBytes (sha512 m)
  | 1, b, _ => ⟨b, rfl⟩
  | n + 2, b, _ => by
    obtain ⟨m, hm⟩ := hashRounds_shape (n + 1) (hexBytes (sha512 b)) (by omega)
    exact ⟨m, hm⟩

/-- C4: `calculateHash` is a pure function of `(seed, iterations)`; for
`iterations ≥ 1` it returns a 128-character lowercase hexadecimal string;
at one iteration it is the lowercase hex encoding of a single SHA-512
digest of the seed's UTF-8 bytes; and at `n + 1` iterations it equals
`calculateHash` of the hex text of the first round's digest (i.e. each
round after the first re-digests the lowercase hex text of the previous
digest, not the raw digest bytes). -/
theorem calculateHash_spec (s : String) (n : Nat) (h : 1 ≤ n) :
    (calculateHash s n).length = 128 ∧
    (calculateHash s n).data.all isLowerHexChar = true ∧
    calculateHash s 1 = asciiDecode (hexBytes (sha512 (strBytes s))) ∧
    calculateHash s (n + 1) = calculateHash (calculateHash s 1) n := by
  obtain ⟨m, hm⟩ := hashRounds_shape n (strBytes s) h
  refine ⟨?_, ?_, rfl, ?_⟩
  · show (asciiDecode (hashRounds n (strBytes s))).length = 128
    rw [hm]
    simp [asciiDecode, String.length, hexBytes_length, sha512_length]
  · show (asciiDecode (hashRounds n (strBytes s))).data.all isLowerHexChar = true
    rw [hm]
    rw [List.all_eq_true]
    intro c hc
    simp only [asciiDecode, List.mem_map] at hc
    obtain ⟨x, hx, rfl⟩ := hc
    obtain ⟨k, hk, rfl⟩ := mem_hexBytes (sha512_mem_lt m) hx
    exact hexCode_char k hk
  · have hlt : ∀ c ∈ hexBytes (sha512 (strBytes s)), c < 128 :=
      hexBytes_lt_128 (sha512_mem_lt _)
    show asciiDecode (hashRounds (n + 1) (strBytes s)) =
      asciiDecode (hashRounds n (strBytes (asciiDecode (hexBytes (sha512 (strBytes s))))))
    rw [strBytes_asciiDecode _ hlt, hashRounds_succ]

/-- Witness for `calculateHash_spec` at seed `"a"`, one iteration. -/
theorem calculateHash_spec_witness :
    1 ≤ 1 ∧
    ((calculateHash "a" 1).length = 128 ∧
     (calculateHash "a" 1).data.all isLowerHexChar = true ∧
     calculateHash "a" 1 = asciiDecode (hexBytes (sha512 (strBytes "a"))) ∧
     calculateHash "a" (1 + 1) = calculateHash (calculateHash "a" 1) 1) :=
  ⟨Nat.le_refl 1, calculateHash_spec "a" 1 (Nat.le_refl 1)⟩

/-! ## The mask engine -/

/-- When every template position up to the end fits inside the account,
the mask loop succeeds and produces exactly the per-position
`maskChar` combination of the account (from offset `k`) and the
template. -/
theorem applyMaskRunes_eq (account : List Char) (ms : List Char) (k : Nat)
    (h : k + ms.length ≤ account.length) :
    applyMaskRunes account ms k = some (List.zipWith maskChar (account.drop k) ms) := by
  induction ms generalizing k with
  | nil => simp [applyMaskRunes]
  | cons c rest ih =>
    have hk : k < account.length := by simp at h; omega
    have hdrop : account.drop k = account[k] :: account.drop (k + 1) :=
      List.drop_eq_getElem_cons hk
    have hget : account[k]? = some account[k] := List.getElem?_eq_some_iff.mpr ⟨hk, rfl⟩
    have hrec := ih (k + 1) (by simp at h ⊢; omega)
    rw [hdrop, List.zipWith_cons_cons]
    by_cases hY : c = 'Y'
    · subst hY
      simp only [applyMaskRunes, if_pos rfl, hget, hrec, Option.map_some']
      simp [maskChar]
    · by_cases hX : c = 'X'
      · subst hX
        simp only [applyMaskRunes, hrec, Option.map_some']
        simp [maskChar]
      · simp only [applyMaskRunes, if_neg hY, if_neg hX, hrec, Option.map_some']
        simp [maskChar, hY, hX]

/-- A template without 'Y' or 'X' is reproduced verbatim. -/
theorem zipWith_maskChar_no_yx (a t : List Char) (hlen : t.length ≤ a.length)
    (h : ∀ c ∈ t, c ≠ 'Y' ∧ c ≠ 'X') : List.zipWith maskChar a t = t := by
  induction t generalizing a with
  | nil => exact List.zipWith_nil_right
  | cons c rest ih =>
    cases a with
    | nil => simp at hlen
    | cons x xs =>
      have hc := h c (List.mem_cons_self ..)
      rw [List.zipWith_cons_cons]
      rw [ih xs (by simpa using hlen) (fun y hy => h y (List.mem_cons_of_mem _ hy))]
      simp [maskChar, hc.1, hc.2]

/-- An all-'Y' template reproduces the account verbatim. -/
theorem zipWith_maskChar_all_y (a t : List Char) (hlen : a.length = t.length)
    (h : ∀ c ∈ t, c = 'Y') : List.zipWith maskChar a t = a := by
  induction t generalizing a with
  | nil => cases a with
    | nil => rfl
    | cons x xs => simp at hlen
  | cons c rest ih =>
    cases a with
    | nil => simp at hlen
    | cons x xs =>
      have hc := h c (List.mem_cons_self ..)
      rw [List.zipWith_cons_cons]
      rw [ih xs (by simpa using hlen) (fun y hy => h y (List.mem_cons_of_mem _ hy))]
      simp [maskChar, hc]

/-- Rebuilding a string from its own character list. -/
theorem string_mk_data (s : String) : (⟨s.data⟩ : String) = s := by
  cases s; rfl

/-- C5: under the equal-length precondition, `applyMask` succeeds and its
output is the per-position combination `maskChar` of account and
template ('Y' copies the account character, 'X' stays the literal 'X',
anything else stays the template character); a template without 'Y'/'X'
comes back unchanged and an all-'Y' template returns the account.
`applyMask` is a Lean function, hence pure, and neither input is
mutated. -/
theorem applyMask_spec (bank mask : String) (h : mask.data.length = bank.data.length) :
    applyMask bank mask = some ⟨List.zipWith maskChar bank.data mask.data⟩ ∧
    (mask.data.all (fun c => !(decide (c = 'Y') || decide (c = 'X'))) = true →
      applyMask bank mask = some mask) ∧
    (mask.data.all (fun c => decide (c = 'Y')) = true → applyMask bank mask = some bank) := by
  have hbase : applyMask bank mask = some ⟨List.zipWith maskChar bank.data mask.data⟩ := by
    unfold applyMask
    rw [applyMaskRunes_eq bank.data mask.data 0 (by omega), List.drop_zero,
      Option.map_some']
  refine ⟨hbase, ?_, ?_⟩
  · intro hno
    rw [List.all_eq_true] at hno
    have : List.zipWith maskChar bank.data mask.data = mask.data := by
      refine zipWith_maskChar_no_yx bank.data mask.data (by omega) ?_
      intro c hc
      have := hno c hc
      constructor <;> intro hcc <;> subst hcc <;> simp at this
    rw [hbase, this, string_mk_data]
  · intro hall
    rw [List.all_eq_true] at hall
    have : List.zipWith maskChar bank.data mask.data = bank.data := by
      refine zipWith_maskChar_all_y bank.data mask.data (by omega) ?_
      intro c hc
      have := hall c hc
      simpa using this
    rw [hbase, this, string_mk_data]

/-- Witness for `applyMask_spec` at account `"123"`, template `"YXZ"`
(one copied digit, one placeholder, one literal). -/
theorem applyMask_spec_witness :
    "YXZ".data.length = "123".data.length ∧
    (applyMask "123" "YXZ" = some ⟨List.zipWith maskChar "123".data "YXZ".data⟩ ∧
     ("YXZ".data.all (fun c => !(decide (c = 'Y') || decide (c = 'X'))) = true →
       applyMask "123" "YXZ" = some "YXZ") ∧
     ("YXZ".data.all (fun c => decide (c = 'Y')) = true →
       applyMask "123" "YXZ" = some "123")) :=
  ⟨by decide, applyMask_spec "123" "YXZ" (by decide)⟩

/-- The mask loop panics exactly when some 'Y' of the template sits at an
index at or beyond the account's length. -/
theorem applyMaskRunes_none_iff (account : List Char) (ms : List Char) (k : Nat) :
    applyMaskRunes account ms k = none ↔
      ∃ j, ms[j]? = some 'Y' ∧ account.length ≤ k + j := by
  induction ms generalizing k with
  | nil => simp [applyMaskRunes]
  | cons c rest ih =>
    by_cases hY : c = 'Y'
    · subst hY
      cases hacc : account[k]? with
      | none =>
        have hlen : account.length ≤ k := List.getElem?_eq_none_iff.mp hacc
        simp only [applyMaskRunes, if_pos rfl, hacc]
        constructor
        · intro
          exact ⟨0, List.getElem?_cons_zero, by omega⟩
        · intro
          rfl
      | some d =>
        have hk : k < account.length := by
          by_contra hc
          push_neg at hc
          rw [List.getElem?_eq_none_iff.mpr hc] at hacc
          cases hacc
        have hstep : applyMaskRunes account ('Y' :: rest) k = none ↔
            applyMaskRunes account rest (k + 1) = none := by
          simp only [applyMaskRunes, if_pos rfl, hacc]
          cases applyMaskRunes account rest (k + 1) <;> simp
        rw [hstep, ih (k + 1)]
        constructor
        · rintro ⟨j, hj, hl⟩
          exact ⟨j + 1, by simpa using hj, by omega⟩
        · rintro ⟨j, hj, hl⟩
          cases j with
          | zero => omega
          | succ j' =>
            rw [List.getElem?_cons_succ] at hj
            exact ⟨j', hj, by omega⟩
    · have hwrap : applyMaskRunes account (c :: rest) k = none ↔
          applyMaskRunes account rest (k + 1) = none := by
        simp only [applyMaskRunes, if_neg hY]
        split <;> rw [Option.map_eq_none']
      rw [hwrap, ih (k + 1)]
      constructor
      · rintro ⟨j, hj, hl⟩
        exact ⟨j + 1, by simpa using hj, by omega⟩
      · rintro ⟨j, hj, hl⟩
        cases j with
        | zero =>
          rw [List.getElem?_cons_zero] at hj
          cases hj
          exact absurd rfl hY
        | succ j' =>
          rw [List.getElem?_cons_succ] at hj
          exact ⟨j', hj, by omega⟩

/-- C6 (amended): `applyMask` raises the index-out-of-range error iff the
template has a 'Y' at a position at or beyond the account's length — a
template of different length without such a 'Y' is processed without any
error; under the equal-length precondition the error branch is
unreachable. -/
theorem applyMask_error_iff (bank mask : String) :
    (applyMask bank mask = none ↔
      ∃ j, mask.data[j]? = some 'Y' ∧ bank.data.length ≤ j) ∧
    (mask.data.length = bank.data.length → applyMask bank mask ≠ none) := by
  have hiff : applyMask bank mask = none ↔
      ∃ j, mask.data[j]? = some 'Y' ∧ bank.data.length ≤ j := by
    unfold applyMask
    rw [Option.map_eq_none', applyMaskRunes_none_iff bank.data mask.data 0]
    constructor
    · rintro ⟨j, hj, hl⟩
      exact ⟨j, hj, by omega⟩
    · rintro ⟨j, hj, hl⟩
      exact ⟨j, hj, by omega⟩
  refine ⟨hiff, ?_⟩
  intro hlen hnone
  obtain ⟨j, hj, hge⟩ := hiff.mp hnone
  obtain ⟨hjlt, -⟩ := List.getElem?_eq_some_iff.mp hj
  omega

/-- Witness for `applyMask_error_iff`: an equal-length call that cannot
error. -/
theorem applyMask_error_iff_witness : applyMask "12" "YY" ≠ none :=
  (applyMask_error_iff "12" "YY").2 (by decide)

/-- Counterexample to C6 as stated: template `"XX"` and account `"1"`
have different lengths, yet `applyMask` returns `some "XX"` rather than
an error. -/
theorem applyMask_mismatch_no_error :
    applyMask "1" "XX" = some "XX" ∧ "XX".data.length ≠ "1".data.length := by decide

/-! ## The verification decision procedure -/

/-- C7: the handler validates before any lookup and answers with a
structured ERROR body (never a panic): an empty `nip` yields
"Missing required parameters" even when a bank account is supplied, and a
non-empty `nip` with a supplied account of byte length ≠ 26 yields
"Invalid bank account number".  Both conclusions are constants, so no
hash is computed and no snapshot field can influence them. -/
theorem verify_validation (snap : Snapshot) (nip bank : String) :
    (nip = "" → verifyHandler snap nip bank = some (.error "Missing required parameters")) ∧
    (nip ≠ "" → bank ≠ "" → goLen bank ≠ 26 →
      verifyHandler snap nip bank = some (.error "Invalid bank account number")) := by
  constructor
  · intro h
    simp [verifyHandler, h]
  · intro h1 h2 h3
    simp [verifyHandler, h1, h2, h3]

/-- Witness for `verify_validation`: the spec's two test vectors. -/
theorem verify_validation_witness :
    verifyHandler initialGlobals "" "12345678901234567890123456" =
      some (.error "Missing required parameters") ∧
    verifyHandler initialGlobals "1234567890" "short" =
      some (.error "Invalid bank account number") :=
  ⟨(verify_validation initialGlobals "" "12345678901234567890123456").1 rfl,
   (verify_validation initialGlobals "1234567890" "short").2 (by decide) (by decide)
     (by decide)⟩

/-- C1: an identity-only hash hit short-circuits every bank check.  With
a non-empty `nip` and a bank parameter that passes validation (absent or
26 bytes), a NIP hash in the active set answers `{ACTIVE, NA, date}`
whatever the bank and mask data; failing that, a NIP hash in the exempt
set answers `{EXEMPT, NA, date}`.  Neither conclusion depends on the
direct or masked bank hashes. -/
theorem identity_match_short_circuit (snap : Snapshot) (nip bank : String)
    (hnip : nip ≠ "") (hbank : bank = "" ∨ goLen bank = 26) :
    (calculateHash (snap.dataDate ++ nip) snap.iterations ∈ snap.activeHashes →
      verifyHandler snap nip bank = some (.ok "ACTIVE" "NA" snap.dataDate)) ∧
    (calculateHash (snap.dataDate ++ nip) snap.iterations ∉ snap.activeHashes →
      calculateHash (snap.dataDate ++ nip) snap.iterations ∈ snap.exemptHashes →
      verifyHandler snap nip bank = some (.ok "EXEMPT" "NA" snap.dataDate)) := by
  have hval : ¬(bank ≠ "" ∧ goLen bank ≠ 26) := by
    rcases hbank with h | h
    · exact fun hc => hc.1 h
    · exact fun hc => hc.2 h
  constructor
  · intro hact
    simp [verifyHandler, hnip, hval, hact]
  · intro hact hex
    simp [verifyHandler, hnip, hval, hact, hex]

/-- Witness for `identity_match_short_circuit`: NIP `"123"` is ACTIVE in
`snapActiveId` even with a valid account supplied, and EXEMPT in
`snapExemptId` with no account. -/
theorem identity_match_short_circuit_witness :
    verifyHandler snapActiveId "123" bank26 =
      some (.ok "ACTIVE" "NA" snapActiveId.dataDate) ∧
    verifyHandler snapExemptId "123" "" =
      some (.ok "EXEMPT" "NA" snapExemptId.dataDate) := by
  constructor
  · exact (identity_match_short_circuit snapActiveId "123" bank26 (by decide)
      (Or.inr (by decide))).1 (by decide)
  · exact (identity_match_short_circuit snapExemptId "123" "" (by decide)
      (Or.inl rfl)).2 (by decide) (by decide)

/-- C10: an empty `bank` parameter behaves exactly like an absent one —
it is not length-validated and triggers no bank matching; for every
non-empty `nip` the answer is the identity-only outcome, which is one of
`{ACTIVE, NA}`, `{EXEMPT, NA}`, `{NOT_FOUND, NOT_FOUND}`, each carrying
the snapshot date. -/
theorem empty_bank_identity_only (snap : Snapshot) (nip : String) (h : nip ≠ "") :
    verifyHandler snap nip "" = some (identityOnlyOutcome snap nip) ∧
    (identityOnlyOutcome snap nip = .ok "ACTIVE" "NA" snap.dataDate ∨
     identityOnlyOutcome snap nip = .ok "EXEMPT" "NA" snap.dataDate ∨
     identityOnlyOutcome snap nip = .ok "NOT_FOUND" "NOT_FOUND" snap.dataDate) := by
  constructor
  · by_cases h1 : calculateHash (snap.dataDate ++ nip) snap.iterations
        ∈ snap.activeHashes
    · simp [verifyHandler, identityOnlyOutcome, h, h1]
    · by_cases h2 : calculateHash (snap.dataDate ++ nip) snap.iterations
          ∈ snap.exemptHashes
      · simp [verifyHandler, identityOnlyOutcome, h, h1, h2]
      · simp [verifyHandler, identityOnlyOutcome, h, h1, h2]
  · simp only [identityOnlyOutcome]
    split
    · exact Or.inl rfl
    · split
      · exact Or.inr (Or.inl rfl)
      · exact Or.inr (Or.inr rfl)

/-- Witness for `empty_bank_identity_only` at `snapActiveId`, NIP
`"123"`. -/
theorem empty_bank_identity_only_witness :
    verifyHandler snapActiveId "123" "" = some (identityOnlyOutcome snapActiveId "123") ∧
    (identityOnlyOutcome snapActiveId "123" = .ok "ACTIVE" "NA" snapActiveId.dataDate ∨
     identityOnlyOutcome snapActiveId "123" = .ok "EXEMPT" "NA" snapActiveId.dataDate ∨
     identityOnlyOutcome snapActiveId "123" =
       .ok "NOT_FOUND" "NOT_FOUND" snapActiveId.dataDate) :=
  empty_bank_identity_only snapActiveId "123" (by decide)

/-! ## The mask-template scan -/

/-- Templates whose masked hashes miss both sets do not stop the scan:
the loop walks past them to the remainder of the list. -/
theorem scanMasks_append_nomatch (snap : Snapshot) (nip bank : String)
    (pre rest : List String)
    (hpre : ∀ m' ∈ pre, ∃ masked', applyMask bank m' = some masked' ∧
      calculateHash (snap.dataDate ++ nip ++ masked') snap.iterations
        ∉ snap.activeHashes ∧
      calculateHash (snap.dataDate ++ nip ++ masked') snap.iterations
        ∉ snap.exemptHashes) :
    scanMasks snap nip bank (pre ++ rest) = scanMasks snap nip bank rest := by
  induction pre with
  | nil => rfl
  | cons m' pre' ih =>
    obtain ⟨masked', hap, h1, h2⟩ := hpre m' (List.mem_cons_self ..)
    have ih' := ih fun x hx => hpre x (List.mem_cons_of_mem _ hx)
    rw [List.cons_append]
    simp only [scanMasks, hap]
    simp [h1, h2, ih']

/-- C2: with no identity-only and no direct account-hash match, the
templates are scanned in list order and the first whose masked hash lies
in a hash set decides the response (ACTIVE checked before EXEMPT for that
template); earlier non-matching templates do not stop the scan, and the
templates after the deciding one (`post`) are arbitrary — they are never
consulted. -/
theorem mask_first_match (snap : Snapshot) (nip bank : String)
    (pre post : List String) (m masked : String)
    (hnip : nip ≠ "") (hlen : goLen bank = 26)
    (hmasks : snap.masks = pre ++ m :: post)
    (hid1 : calculateHash (snap.dataDate ++ nip) snap.iterations ∉ snap.activeHashes)
    (hid2 : calculateHash (snap.dataDate ++ nip) snap.iterations ∉ snap.exemptHashes)
    (hd1 : calculateHash (snap.dataDate ++ nip ++ bank) snap.iterations
      ∉ snap.activeHashes)
    (hd2 : calculateHash (snap.dataDate ++ nip ++ bank) snap.iterations
      ∉ snap.exemptHashes)
    (hpre : ∀ m' ∈ pre, ∃ masked', applyMask bank m' = some masked' ∧
      calculateHash (snap.dataDate ++ nip ++ masked') snap.iterations
        ∉ snap.activeHashes ∧
      calculateHash (snap.dataDate ++ nip ++ masked') snap.iterations
        ∉ snap.exemptHashes)
    (hm : applyMask bank m = some masked) :
    (calculateHash (snap.dataDate ++ nip ++ masked) snap.iterations
        ∈ snap.activeHashes →
      verifyHandler snap nip bank = some (.ok "ACTIVE" "MATCHED" snap.dataDate)) ∧
    (calculateHash (snap.dataDate ++ nip ++ masked) snap.iterations
        ∉ snap.activeHashes →
      calculateHash (snap.dataDate ++ nip ++ masked) snap.iterations
        ∈ snap.exemptHashes →
      verifyHandler snap nip bank = some (.ok "EXEMPT" "MATCHED" snap.dataDate)) := by
  have hbne : bank ≠ "" := by
    intro hb
    rw [hb] at hlen
    exact absurd hlen (by decide)
  have hval : ¬(bank ≠ "" ∧ goLen bank ≠ 26) := fun hc => hc.2 hlen
  have hscan : scanMasks snap nip bank snap.masks = scanMasks snap nip bank (m :: post) := by
    rw [hmasks]
    exact scanMasks_append_nomatch snap nip bank pre (m :: post) hpre
  constructor
  · intro hmatch
    simp only [verifyHandler, hscan, scanMasks, hm]
    simp [hnip, hval, hlen, hid1, hid2, hbne, hd1, hd2, hmatch]
  · intro hmiss hmatch
    simp only [verifyHandler, hscan, scanMasks, hm]
    simp [hnip, hval, hlen, hid1, hid2, hbne, hd1, hd2, hmiss, hmatch]

/-- Witness for `mask_first_match` on `snapMask`: the first template
(all-'X') misses, the second (25 'Y's then 'X') hits the active set, and
the answer is `{ACTIVE, MATCHED}`. -/
theorem mask_first_match_witness :
    verifyHandler snapMask "123" bank26 = some (.ok "ACTIVE" "MATCHED" snapMask.dataDate) := by
  refine (mask_first_match snapMask "123" bank26
    ["XXXXXXXXXXXXXXXXXXXXXXXXXX"] [] "YYYYYYYYYYYYYYYYYYYYYYYYYX"
    "1111111111111111111111111X"
    (by decide) (by decide) rfl (by decide) (by decide) (by decide) (by decide)
    ?_ (by decide)).1 (by decide)
  intro m' hm'
  have hx : m' = "XXXXXXXXXXXXXXXXXXXXXXXXXX" := by simpa using hm'
  subst hx
  exact ⟨"XXXXXXXXXXXXXXXXXXXXXXXXXX", by decide, by decide, by decide⟩

/-! ## Snapshot reads that overlap a refresh -/

/-- When every access sees the same generation, the staged mask
scan coincides with the single-snapshot one. -/
theorem scanMasksStaged_const (g : Nat → Snapshot) (snap : Snapshot)
    (hg : ∀ i, g i = snap) (nip bank : String) (ms : List String) :
    ∀ k, scanMasksStaged g snap.dataDate nip bank ms k = scanMasks snap nip bank ms := by
  induction ms with
  | nil => intro k; rfl
  | cons m rest ih =>
    intro k
    cases hap : applyMask bank m with
    | none => simp [scanMasksStaged, scanMasks, hap]
    | some masked =>
      simp only [scanMasksStaged, scanMasks, hap, hg]
      split
      · rfl
      · split
        · rfl
        · exact ih (k + 2)

/-- C3 (amended): each individual locked access is internally consistent,
and a request none of whose accesses overlap a refresh (every access sees
the same generation) behaves exactly as the single-snapshot decision
procedure. -/
theorem verifyStaged_consistent (g : Nat → Snapshot) (snap : Snapshot)
    (hg : ∀ i, g i = snap) (nip bank : String) :
    verifyStaged g nip bank = verifyHandler snap nip bank := by
  simp only [verifyStaged, verifyHandler, hg,
    scanMasksStaged_const g snap hg nip bank]

/-- Witness for `verifyStaged_consistent` with all accesses seeing
`snapOld`. -/
theorem verifyStaged_consistent_witness :
    verifyStaged (fun _ => snapOld) "N" "" = verifyHandler snapOld "N" "" :=
  verifyStaged_consistent (fun _ => snapOld) snapOld (fun _ => rfl) "N" ""

/-- Counterexample to C3 as stated: with a refresh completing between the
handler's `dataDate` read and its hash-set read (`refreshMid`), the NIP
hash is computed with the old generation's date but looked up in the new
generation's sets, answering NOT_FOUND although the NIP is ACTIVE in both
generations — the overlapping call observes neither entirely the old
snapshot nor entirely the new one. -/
theorem refresh_interleaving_mixes_generations :
    verifyStaged refreshMid "N" "" = some (.ok "NOT_FOUND" "NOT_FOUND" "D1") ∧
    verifyHandler snapOld "N" "" = some (.ok "ACTIVE" "NA" "D1") ∧
    verifyHandler snapNew "N" "" = some (.ok "ACTIVE" "NA" "D2") ∧
    verifyStaged refreshMid "N" "" ≠ verifyHandler snapOld "N" "" ∧
    verifyStaged refreshMid "N" "" ≠ verifyHandler snapNew "N" "" := by decide

/-! ## Loading a source document -/

/-- C8 (amended): a parsed document's positive integer transform count
becomes the new iteration count; when the count is absent (`""`),
non-numeric, or non-positive, the iteration count keeps its previous
value — which is 5000 only until some earlier load changed it (the Go
global starts at 5000). -/
theorem loadData_iterations (g : Snapshot) (doc : DataStructure) :
    (∀ n : Int, goAtoi doc.transformCount = some n → 0 < n →
      (loadData g (.parsed doc)).1.iterations = n.toNat) ∧
    (goAtoi doc.transformCount = none →
      (loadData g (.parsed doc)).1.iterations = g.iterations) ∧
    (∀ n : Int, goAtoi doc.transformCount = some n → n ≤ 0 →
      (loadData g (.parsed doc)).1.iterations = g.iterations) ∧
    initialGlobals.iterations = 5000 := by
  refine ⟨?_, ?_, ?_, rfl⟩
  · intro n hn hpos
    simp [loadData, hn, hpos]
  · intro hn
    simp [loadData, hn]
  · intro n hn hnonpos
    have : ¬(0 < n) := by omega
    simp [loadData, hn, this]

/-- Witness for `loadData_iterations`: `"7"` is adopted, `"abc"` falls
back to the current value (5000 in the initial state). -/
theorem loadData_iterations_witness :
    (loadData initialGlobals (.parsed docSeven)).1.iterations = 7 ∧
    (loadData initialGlobals (.parsed docBadCount)).1.iterations = 5000 := by
  constructor
  · have h := (loadData_iterations initialGlobals docSeven).1 7 (by decide) (by decide)
    simpa using h
  · have h := (loadData_iterations initialGlobals docBadCount).2.1 (by decide)
    simpa using h

/-- Counterexample to C8 as stated: after a load that set the iteration
count to 7, a document with a non-numeric count leaves it at 7 — the
fallback is the previous value, not the constant 5000. -/
theorem iteration_fallback_not_default :
    (loadData (loadData initialGlobals (.parsed docSeven)).1 (.parsed docBadCount)).1.iterations
      = 7 ∧ (7 : Nat) ≠ 5000 := by decide

/-- C9: a failed read or parse of the source document makes `loadData`
return an error with every global field untouched — the prior snapshot
remains in force and nothing of the malformed document is adopted. -/
theorem loadData_failure_preserves (g : Snapshot) (inp : LoadInput)
    (h : inp = .readError ∨ inp = .parseError) :
    loadData g inp = (g, true) := by
  rcases h with rfl | rfl <;> rfl

/-- Witness for `loadData_failure_preserves` at a read failure over the
initial state. -/
theorem loadData_failure_preserves_witness :
    loadData initialGlobals .readError = (initialGlobals, true) :=
  loadData_failure_preserves initialGlobals .readError (Or.inl rfl)

end VatChecker
